import Mathlib

/-!
Verification of the `CodeCraft-AI` repository (`src/ai_agents.py`) against its
natural-language specification.

The Python module is a four-stage prompt-chaining pipeline (plan, code,
review, test) over a hosted chat-completion endpoint.  We give a shallow
embedding: Python runtime values become the inductive `PyVal`; a dict access
or `len()` call that would raise becomes `Option.none`; the external
chat-completion transport and the external `json.loads` library routine are
parameters gathered in `Env` (the repository code never inspects them beyond
"returned text" and "parsed value or exception").  Every stage function below
is translated line by line from `src/ai_agents.py`.
-/

set_option autoImplicit false

namespace CodeCraft

/-- Python runtime values, as far as this module produces or consumes them:
strings, integers, booleans, `None`, lists, and dicts (insertion-ordered
association lists with distinct keys, as produced by dict literals and by
`json.loads`). -/
inductive PyVal where
  | str : String → PyVal
  | int : Int → PyVal
  | bool : Bool → PyVal
  | none : PyVal
  | list : List PyVal → PyVal
  | dict : List (String × PyVal) → PyVal

/-- Lookup of a string key in an association list (first match; the dicts this
program builds have distinct keys). -/
def alistGet (k : String) : List (String × PyVal) → Option PyVal
  | [] => Option.none
  | kv :: rest => if kv.1 = k then Option.some kv.2 else alistGet k rest

/-- Python subscript `v[k]` with a string key: succeeds only on a dict that has
the key; a `KeyError` or `TypeError` is `Option.none`. -/
def pyGet (v : PyVal) (k : String) : Option PyVal :=
  match v with
  | .dict kvs => alistGet k kvs
  | _ => Option.none

/-- Python `len(v)`: defined on strings, lists and dicts; raises (here:
`Option.none`) on ints, bools and `None`. -/
def pyLen : PyVal → Option Nat
  | .str s => Option.some s.length
  | .list l => Option.some l.length
  | .dict kvs => Option.some kvs.length
  | _ => Option.none

/-- Python iteration order: a list yields its elements, a string its
one-character strings, a dict its keys; other values raise. -/
def pyIter : PyVal → Option (List PyVal)
  | .str s => Option.some (s.data.map fun c => PyVal.str (String.singleton c))
  | .list l => Option.some l
  | .dict kvs => Option.some (kvs.map fun kv => PyVal.str kv.1)
  | _ => Option.none

/-- Python truthiness of a value (used by `if result[\x22review\x22][\x22issues\x22]:`
and friends in `main`). -/
def pyTruthyV : PyVal → Bool
  | .str s => s != ""
  | .int i => i != 0
  | .bool b => b
  | .none => false
  | .list l => !l.isEmpty
  | .dict kvs => !kvs.isEmpty

/-- Python `str()` of a value as interpolated by an f-string.  Container
rendering is abbreviated: no property proved below inspects the rendered text
of a non-string task description. -/
def pyStr : PyVal → String
  | .str s => s
  | .int i => toString i
  | .bool b => if b then "True" else "False"
  | .none => "None"
  | .list l => "[python list, " ++ toString l.length ++ " items]"
  | .dict kvs => "[python dict, " ++ toString kvs.length ++ " items]"

/-- Python slice `s[:n]` on a string: the first `n` characters (code points). -/
def pySlice (s : String) (n : Nat) : String := ⟨s.data.take n⟩

/-- Python `s.lower()`: character-wise lowercasing. -/
def pyLower (s : String) : String := ⟨s.data.map Char.toLower⟩

/-- Helper for substring search: does the second character list start with the
first one? -/
def strHasPre : List Char → List Char → Bool
  | [], _ => true
  | _ :: _, [] => false
  | p :: ps, c :: cs => p == c && strHasPre ps cs

/-- Helper for substring search: does the pattern occur anywhere? -/
def listHasSub (p : List Char) : List Char → Bool
  | [] => p.isEmpty
  | c :: cs => strHasPre p (c :: cs) || listHasSub p cs

/-- Python membership test `pat in s` on strings (substring containment). -/
def pyIn (pat s : String) : Bool := listHasSub pat.data s.data

/-- Expect a Python str (e.g. `file.write` raises on non-strings). -/
def asString : PyVal → Option String
  | .str s => Option.some s
  | _ => Option.none

/-- Expect a Python dict and return its items in insertion order
(`result.items()`). -/
def asDict : PyVal → Option (List (String × PyVal))
  | .dict kvs => Option.some kvs
  | _ => Option.none

/-- Outcome of one call to the external chat-completion endpoint inside
`AIAgent.call_openai`: either the returned message content, or a raised
exception rendered as the Python `str(e)` text. -/
inductive ApiOutcome where
  | success : String → ApiOutcome
  | failure : String → ApiOutcome

/-- Embedding of `AIAgent.call_openai` (src/ai_agents.py lines 27-42): the
`try` body yields the response content; the bare `except` turns any raised
exception `e` into the string `f"Error: \x7bstr(e)\x7d"`. -/
def call_openai (outcome : ApiOutcome) : String :=
  match outcome with
  | .success content => content
  | .failure e => "Error: " ++ e

/-- The two external effects the module runs on: the chat-completion transport
(one outcome per `(user prompt, system message)` pair — the four stages of a
run all use distinct system messages) and the `json.loads` library routine
(`Option.none` means the parse raised, the case every bare `except` catches). -/
structure Env where
  api : String → String → ApiOutcome
  loads : String → Option PyVal

/-- System message of `PlannerAgent.process` (lines 52-53). -/
def plannerSystemMsg : String :=
  "You are a task planning expert. Break down programming requests into 3-5 specific, actionable micro-tasks. \n        Return as JSON array with format: [\x7b\"id\": \"1\", \"task\": \"description\", \"priority\": \"high/medium/low\"\x7d]"

/-- The hardcoded two-task fallback list of `PlannerAgent.process`
(lines 60-61). -/
def plannerFallback : PyVal :=
  PyVal.list
    [PyVal.dict [("id", PyVal.str "1"), ("task", PyVal.str "Analyze requirements"), ("priority", PyVal.str "high")],
     PyVal.dict [("id", PyVal.str "2"), ("task", PyVal.str "Implement solution"), ("priority", PyVal.str "high")]]

/-- Embedding of `PlannerAgent.process` (lines 51-61): call the endpoint, try
`json.loads` on the response, and on any parse exception return the fixed
two-task fallback list.  The bare `except` makes this function total. -/
def planner_process (env : Env) (prompt : String) : PyVal :=
  let response := call_openai (env.api prompt plannerSystemMsg)
  match env.loads response with
  | Option.some v => v
  | Option.none => plannerFallback

/-- One line `f"- \x7btask[\x27task\x27]\x7d"` per task (line 71); a task without a
`task` key raises. -/
def taskLines : List PyVal → Option (List String)
  | [] => Option.some []
  | t :: rest =>
    match pyGet t "task" with
    | Option.none => Option.none
    | Option.some v =>
      match taskLines rest with
      | Option.none => Option.none
      | Option.some others => Option.some (("- " ++ pyStr v) :: others)

/-- The `task_summary` string of `CodeAgent.process` (line 71):
`"\n".join(f"- \x7btask[\x27task\x27]\x7d" for task in tasks)`.  Iterating a
non-iterable or subscripting a non-dict raises. -/
def build_task_summary (tasks : PyVal) : Option String :=
  match pyIter tasks with
  | Option.none => Option.none
  | Option.some items =>
    match taskLines items with
    | Option.none => Option.none
    | Option.some lines => Option.some (String.intercalate "\n" lines)

/-- System message of `CodeAgent.process` (lines 73-83), an f-string over the
task summary. -/
def coderSystemMsg (task_summary : String) : String :=
  "You are an expert programmer. Generate clean, well-documented code based on this request.\n        \n        Tasks to implement:\n        " ++ task_summary ++ "\n        \n        Requirements:\n        - Include error handling\n        - Add input validation\n        - Use clear variable names\n        - Add docstrings/comments\n        - Return only the code, no explanations"

/-- The javascript keyword check of `CodeAgent.process` (line 89). -/
def jsAny (s : String) : Bool :=
  ["function", "const", "let", "var"].any fun k => pyIn k s

/-- The java keyword check of `CodeAgent.process` (line 91). -/
def javaAny (s : String) : Bool :=
  ["public class", "private", "import java"].any fun k => pyIn k s

/-- The keyword-membership language classifier of `CodeAgent.process`
(lines 87-92): default `python`; `javascript` if any javascript keyword occurs
in the lowercased text; otherwise `java` if any java keyword occurs. -/
def detect_language (code : String) : String :=
  if jsAny (pyLower code) then "javascript"
  else if javaAny (pyLower code) then "java"
  else "python"

/-- The dict built by `CodeAgent.process` (lines 94-98); its shape is fixed by
the code, so it is a structure here. -/
structure CodeResult where
  code : String
  language : String
  description : String

/-- Embedding of `CodeAgent.process` (lines 70-98): build the task summary
(this is the one place a stage can raise, when the planner output is not a
list of dicts carrying a `task` key), call the endpoint, classify the
language, and package the result with a truncated description. -/
def coder_process (env : Env) (prompt : String) (tasks : PyVal) : Option CodeResult :=
  match build_task_summary tasks with
  | Option.none => Option.none
  | Option.some task_summary =>
    let code := call_openai (env.api prompt (coderSystemMsg task_summary))
    Option.some
      { code := code
        language := detect_language code
        description := pySlice prompt 100 ++ "..." }

/-- System message of `CriticAgent.process` (lines 108-121). -/
def criticSystemMsg : String :=
  "You are a senior code reviewer. Analyze the code for:\n        - Logic errors\n        - Security issues\n        - Performance problems\n        - Code quality issues\n        - Missing error handling\n        \n        Return JSON format:\n        \x7b\n            \"score\": 1-10,\n            \"issues\": [\"list of issues found\"],\n            \"suggestions\": [\"list of improvements\"],\n            \"approved\": true/false\n        \x7d"

/-- The hardcoded fallback critique of `CriticAgent.process` (lines 130-135). -/
def criticFallback : PyVal :=
  PyVal.dict
    [("score", PyVal.int 7),
     ("issues", PyVal.list [PyVal.str "Could not parse review"]),
     ("suggestions", PyVal.list [PyVal.str "Manual review recommended"]),
     ("approved", PyVal.bool true)]

/-- The user prompt built by `CriticAgent.process` (line 123). -/
def criticUserPrompt (code_result : CodeResult) : String :=
  "Review this " ++ code_result.language ++ " code:\n\n" ++ code_result.code

/-- Embedding of `CriticAgent.process` (lines 107-135): call the endpoint on
the generated code, try `json.loads`, and on any parse exception return the
fixed "approved, score 7" critique.  Total, like the planner. -/
def critic_process (env : Env) (code_result : CodeResult) : PyVal :=
  let response := call_openai (env.api (criticUserPrompt code_result) criticSystemMsg)
  match env.loads response with
  | Option.some v => v
  | Option.none => criticFallback

/-- System message of `TestAgent.process` (lines 145-152), an f-string over the
classified language. -/
def testerSystemMsg (language : String) : String :=
  "You are a test automation expert. Generate comprehensive unit tests for this " ++ language ++ " code.\n        \n        Include:\n        - Basic functionality tests\n        - Edge case tests  \n        - Error handling tests\n        \n        Return only the test code, properly formatted."

/-- The dict built by `TestAgent.process` (lines 157-161). -/
structure TestResult where
  test_code : String
  language : String
  description : String

/-- Embedding of `TestAgent.process` (lines 144-161): one endpoint call, the
response returned verbatim as test code with no parsing or validation. -/
def tester_process (env : Env) (code_result : CodeResult) : TestResult :=
  let test_code := call_openai (env.api ("Create tests for:\n\n" ++ code_result.code) (testerSystemMsg code_result.language))
  { test_code := test_code
    language := code_result.language
    description := "Tests for " ++ code_result.description }

/-- The aggregate record built at lines 199-208, keys in insertion order. -/
def compile_results (prompt : String) (tasks : PyVal) (code_result : CodeResult)
    (review : PyVal) (tests : TestResult) (score approved : PyVal) : PyVal :=
  PyVal.dict
    [("prompt", PyVal.str prompt),
     ("tasks", tasks),
     ("code", PyVal.str code_result.code),
     ("language", PyVal.str code_result.language),
     ("review", review),
     ("tests", PyVal.str tests.test_code),
     ("quality_score", score),
     ("approved", approved)]

/-- Embedding of `AIAgentOrchestrator.generate_code` (lines 173-208).  The
stages run in strict sequence.  Besides the stage bodies themselves, the
method evaluates `len(tasks)` (line 181), `review[\x22score\x22]` (lines 191
and 206) and `review[\x22approved\x22]` (line 207); each of these raises — the
whole call returns `Option.none` — when a successfully parsed response does
not have the shape the code assumes. -/
def generate_code (env : Env) (prompt : String) : Option PyVal :=
  let tasks := planner_process env prompt
  match pyLen tasks with
  | Option.none => Option.none
  | Option.some _ =>
    match coder_process env prompt tasks with
    | Option.none => Option.none
    | Option.some code_result =>
      let review := critic_process env code_result
      match pyGet review "score" with
      | Option.none => Option.none
      | Option.some score =>
        let tests := tester_process env code_result
        match pyGet review "approved" with
        | Option.none => Option.none
        | Option.some approved =>
          Option.some (compile_results prompt tasks code_result review tests score approved)

/-- Content of one written file: either raw text (`f.write(...)`) or the
`json.dump` of a value. -/
inductive FileContent where
  | text : String → FileContent
  | jsonDump : PyVal → FileContent

/-- The extension choice of `AIAgentOrchestrator.save_result` (line 218):
`".py" if result[\x22language\x22] == "python" else ".js"`.  Python `==`
against a string literal is structural string equality and never raises. -/
def choose_ext (language : PyVal) : String :=
  match language with
  | .str s => if s = "python" then ".py" else ".js"
  | _ => ".js"

/-- Embedding of `AIAgentOrchestrator.save_result` (lines 210-231) with an
explicit base filename (the `filename=None` default only synthesizes a
timestamped base name and is outside every claim).  The return value is the
ordered list of files written, `Option.none` when a dict access or a
`f.write` on a non-string raises. -/
def save_result (result : PyVal) (filename : String) : Option (List (String × FileContent)) :=
  match pyGet result "language" with
  | Option.none => Option.none
  | Option.some lang =>
    let ext := choose_ext lang
    match pyGet result "code" with
    | Option.none => Option.none
    | Option.some codeV =>
      match asString codeV with
      | Option.none => Option.none
      | Option.some code =>
        match pyGet result "tests" with
        | Option.none => Option.none
        | Option.some testsV =>
          match asString testsV with
          | Option.none => Option.none
          | Option.some tests =>
            match asDict result with
            | Option.none => Option.none
            | Option.some kvs =>
              let metadata := kvs.filter fun kv => decide (¬(kv.1 = "code" ∨ kv.1 = "tests"))
              Option.some
                [(filename ++ ext, FileContent.text code),
                 (filename ++ "_test" ++ ext, FileContent.text tests),
                 (filename ++ "_info.json", FileContent.jsonDump (PyVal.dict metadata))]

/-- The parsed command line of `main` (lines 236-242): one positional goal,
an optional save base name, two display flags. -/
structure CliArgs where
  prompt : String
  save : Option String
  show_code : Bool
  show_tests : Bool

/-- Outcome of one `main` invocation: either the early return after the
missing-credential console report (lines 245-248), or a full run, which may
itself raise (`Option.none`) while reporting or saving. -/
inductive MainOutcome where
  | missingKey : MainOutcome
  | ran : Option (PyVal × List (String × FileContent)) → MainOutcome

/-- Python truthiness of `os.getenv(...)`: `None` and the empty string are
falsy. -/
def pyTruthy (v : Option String) : Bool :=
  match v with
  | Option.none => false
  | Option.some s => s != ""

/-- The body of `main` after the credential check (lines 251-283): run the
pipeline, touch every result field the console report reads (lines 258-279 —
`review[\x22issues\x22]` and `review[\x22suggestions\x22]` can raise on a
parsed-but-misshapen review), then save when `--save` was given. -/
def report_and_save (env : Env) (args : CliArgs) : Option (PyVal × List (String × FileContent)) :=
  match generate_code env args.prompt with
  | Option.none => Option.none
  | Option.some result =>
    match pyGet result "review" with
    | Option.none => Option.none
    | Option.some review =>
      match pyGet review "issues" with
      | Option.none => Option.none
      | Option.some issues =>
        match pyLen issues with
        | Option.none => Option.none
        | Option.some _ =>
          match (if pyTruthyV issues then (pyIter issues).map (fun _ => ()) else Option.some ()) with
          | Option.none => Option.none
          | Option.some _ =>
            match pyGet review "suggestions" with
            | Option.none => Option.none
            | Option.some suggestions =>
              match (if pyTruthyV suggestions then (pyIter suggestions).map (fun _ => ()) else Option.some ()) with
              | Option.none => Option.none
              | Option.some _ =>
                match args.save with
                | Option.none => Option.some (result, [])
                | Option.some fn =>
                  if fn = "" then Option.some (result, [])
                  else
                    match save_result result fn with
                    | Option.none => Option.none
                    | Option.some writes => Option.some (result, writes)

/-- Embedding of `main` (lines 234-283): after argument parsing, the
credential check `if not os.getenv(\x27OPENAI_API_KEY\x27)` (line 245) prints
an error and returns — `MainOutcome.missingKey` — before the orchestrator is
built, so before any stage or inference call; otherwise the pipeline runs.
(The client object itself reads `XAI_API_KEY`; line 245 is the only
credential check that gates execution.) -/
def main (env : Env) (getenv : String → Option String) (args : CliArgs) : MainOutcome :=
  if pyTruthy (getenv "OPENAI_API_KEY") then MainOutcome.ran (report_and_save env args)
  else MainOutcome.missingKey

/-- A task element the code can consume: subscripting it with `task` succeeds. -/
def goodTask (t : PyVal) : Bool := (pyGet t "task").isSome

/-- A planner output the whole pipeline can consume: a list of consumable
task elements.  The hardcoded fallback list satisfies this. -/
def goodTasks (v : PyVal) : Bool :=
  match v with
  | .list l => l.all goodTask
  | _ => false

/-- A review the orchestrator can consume: `score` and `approved` accesses
both succeed.  The hardcoded fallback critique satisfies this. -/
def goodReview (v : PyVal) : Bool :=
  (pyGet v "score").isSome && (pyGet v "approved").isSome

/-- Concrete environment: the endpoint always answers with prose that is not
JSON, and every `json.loads` attempt raises (as `json.loads` does on such
text), so every parsing stage takes its fallback branch. -/
def envAllFallback : Env :=
  { api := fun _ _ => ApiOutcome.success "this response is plain prose, not JSON"
    loads := fun _ => Option.none }

/-- Concrete environment for the C1 counterexample: the endpoint answers the
literal text `5` at every stage, and parsing behaves exactly as `json.loads`
does on the strings that actually occur in the run: `json.loads("5")` returns
the integer `5` (and the fallback path is never taken). -/
def envJsonInt : Env :=
  { api := fun _ _ => ApiOutcome.success "5"
    loads := fun s => if s = "5" then Option.some (PyVal.int 5) else Option.none }

/-- The pipeline record produced by `envAllFallback` on a fixed goal (it
exists; see the C1 witness). -/
def resultW : PyVal :=
  (generate_code envAllFallback "create a function to add two numbers").getD PyVal.none

/-- The code-stage record produced by `envAllFallback` on a short prompt and an
empty task list. -/
def crW : CodeResult :=
  (coder_process envAllFallback "add two numbers" (PyVal.list [])).getD
    { code := "", language := "", description := "" }

/-- A concrete java-classified result record for the extension and persistence
witnesses. -/
def resJava : PyVal :=
  PyVal.dict
    [("language", PyVal.str "java"),
     ("code", PyVal.str "public class A \x7b\x7d"),
     ("tests", PyVal.str "public class ATest \x7b\x7d"),
     ("quality_score", PyVal.int 9)]

/-- The files `save_result` writes for `resJava` under base name `out` (it
succeeds; see the C9 witness). -/
def wsJ : List (String × FileContent) :=
  (save_result resJava "out").getD []

/-- A concrete parsed command line. -/
def argsW : CliArgs :=
  { prompt := "create a function to add two numbers", save := Option.none
    show_code := false, show_tests := false }

/-- A process environment with no variables set. -/
def getenvNone : String → Option String := fun _ => Option.none

/-! Helper lemmas (shared; none of them is a claim theorem). -/

theorem asString_elim {v : PyVal} {s : String} (h : asString v = Option.some s) :
    v = PyVal.str s := by
  cases v <;> simp_all [asString]

theorem asDict_elim {v : PyVal} {kvs : List (String × PyVal)}
    (h : asDict v = Option.some kvs) : v = PyVal.dict kvs := by
  cases v <;> simp_all [asDict]

theorem taskLines_isSome (l : List PyVal) (h : l.all goodTask = true) :
    ∃ lines, taskLines l = Option.some lines := by
  induction l with
  | nil => exact ⟨[], rfl⟩
  | cons t rest ih =>
    simp only [List.all_cons, Bool.and_eq_true] at h
    obtain ⟨v, hv⟩ := Option.isSome_iff_exists.mp (by simpa [goodTask] using h.1)
    obtain ⟨lines, hl⟩ := ih h.2
    exact ⟨("- " ++ pyStr v) :: lines, by simp [taskLines, hv, hl]⟩

theorem goodTasks_elim {v : PyVal} (h : goodTasks v = true) :
    ∃ l, v = PyVal.list l ∧ l.all goodTask = true := by
  cases v <;> first
    | exact ⟨_, rfl, by simpa [goodTasks] using h⟩
    | simp [goodTasks] at h

theorem goodReview_elim {v : PyVal} (h : goodReview v = true) :
    ∃ s a, pyGet v "score" = Option.some s ∧ pyGet v "approved" = Option.some a := by
  simp only [goodReview, Bool.and_eq_true] at h
  obtain ⟨s, hs⟩ := Option.isSome_iff_exists.mp h.1
  obtain ⟨a, ha⟩ := Option.isSome_iff_exists.mp h.2
  exact ⟨s, a, hs, ha⟩

theorem alistGet_filter_keep {p : String → Prop} [DecidablePred p] {k : String} (hp : p k) :
    ∀ kvs : List (String × PyVal),
      alistGet k (kvs.filter fun kv => decide (p kv.1)) = alistGet k kvs := by
  intro kvs
  induction kvs with
  | nil => rfl
  | cons kv rest ih =>
    by_cases hk : kv.1 = k
    · have hpkv : p kv.1 := hk ▸ hp
      simp [List.filter_cons, hpkv, alistGet, hk, hp]
    · by_cases hpkv : p kv.1 <;> simp [List.filter_cons, hpkv, alistGet, hk, ih]

theorem alistGet_filter_drop {p : String → Prop} [DecidablePred p] {k : String} (hp : ¬p k) :
    ∀ kvs : List (String × PyVal),
      alistGet k (kvs.filter fun kv => decide (p kv.1)) = Option.none := by
  intro kvs
  induction kvs with
  | nil => rfl
  | cons kv rest ih =>
    by_cases hk : kv.1 = k
    · have hpkv : ¬p kv.1 := hk ▸ hp
      simp [List.filter_cons, hpkv, ih]
    · by_cases hpkv : p kv.1 <;> simp [List.filter_cons, hpkv, alistGet, hk, ih]

theorem save_result_eq_some {res : PyVal} {fn : String} {ws : List (String × FileContent)}
    (h : save_result res fn = Option.some ws) :
    ∃ lang code tests kvs,
      pyGet res "language" = Option.some lang ∧
      pyGet res "code" = Option.some (PyVal.str code) ∧
      pyGet res "tests" = Option.some (PyVal.str tests) ∧
      res = PyVal.dict kvs ∧
      ws = [(fn ++ choose_ext lang, FileContent.text code),
            (fn ++ "_test" ++ choose_ext lang, FileContent.text tests),
            (fn ++ "_info.json", FileContent.jsonDump
              (PyVal.dict (kvs.filter fun kv => decide (¬(kv.1 = "code" ∨ kv.1 = "tests")))))] := by
  unfold save_result at h
  split at h
  · exact absurd h (by simp)
  case _ lang hlang =>
    split at h
    · exact absurd h (by simp)
    case _ codeV hcodeV =>
      split at h
      · exact absurd h (by simp)
      case _ code hcode =>
        split at h
        · exact absurd h (by simp)
        case _ testsV htestsV =>
          split at h
          · exact absurd h (by simp)
          case _ tests htests =>
            split at h
            · exact absurd h (by simp)
            case _ kvs hkvs =>
              refine ⟨lang, code, tests, kvs, hlang, ?_, ?_, asDict_elim hkvs, ?_⟩
              · rw [hcodeV, asString_elim hcode]
              · rw [htestsV, asString_elim htests]
              · simpa using h.symm

theorem generate_code_eq_some {env : Env} {prompt : String} {r : PyVal}
    (h : generate_code env prompt = Option.some r) :
    ∃ n code_result score approved,
      pyLen (planner_process env prompt) = Option.some n ∧
      coder_process env prompt (planner_process env prompt) = Option.some code_result ∧
      pyGet (critic_process env code_result) "score" = Option.some score ∧
      pyGet (critic_process env code_result) "approved" = Option.some approved ∧
      r = compile_results prompt (planner_process env prompt) code_result
            (critic_process env code_result) (tester_process env code_result) score approved := by
  simp only [generate_code] at h
  split at h
  · exact absurd h (by simp)
  case _ n hn =>
    split at h
    · exact absurd h (by simp)
    case _ code_result hcr =>
      split at h
      · exact absurd h (by simp)
      case _ score hscore =>
        split at h
        · exact absurd h (by simp)
        case _ approved happroved =>
          exact ⟨n, code_result, score, approved, hn, hcr, hscore, happroved,
            (Option.some.injEq _ _ ▸ h.symm)⟩

/-! Claim theorems. -/

/-- C1 (counterexample): the claim "for every goal string and every possible
inference-call response, `generate_code` terminates normally and returns a
record with all five fields" is false.  With the endpoint answering the
literal text `5` at every stage — which `json.loads` parses to the integer
`5`, so no fallback fires — the planner stage hands the orchestrator the
integer `5` as its task list, and `len(tasks)` at line 181 raises a
`TypeError` that nothing catches: the pipeline aborts with no record. -/
theorem c1_crash_on_valid_json_nonlist_response :
    generate_code envJsonInt "create a function to add two numbers" = Option.none := rfl

/-- C1 (amended): for every goal string and every inference-call/parse
behavior such that the planner stage's output is a list of objects each
carrying a `task` key (automatic when its parse fails, since the fallback has
that shape) and every review the critic stage can emit carries `score` and
`approved` keys (again automatic when its parse fails), `generate_code`
terminates normally and returns a record containing all five top-level
fields; in particular no parse failure can abort the pipeline. -/
theorem c1_pipeline_total_for_shaped_responses (env : Env) (prompt : String)
    (h1 : goodTasks (planner_process env prompt) = true)
    (h2 : ∀ cr : CodeResult, goodReview (critic_process env cr) = true) :
    ∃ r, generate_code env prompt = Option.some r ∧
      (pyGet r "prompt").isSome = true ∧ (pyGet r "tasks").isSome = true ∧
      (pyGet r "code").isSome = true ∧ (pyGet r "review").isSome = true ∧
      (pyGet r "tests").isSome = true := by
  obtain ⟨l, hl, hall⟩ := goodTasks_elim h1
  obtain ⟨lines, hlines⟩ := taskLines_isSome l hall
  have hsum : build_task_summary (PyVal.list l) = Option.some (String.intercalate "\n" lines) := by
    simp [build_task_summary, pyIter, hlines]
  set code := call_openai (env.api prompt (coderSystemMsg (String.intercalate "\n" lines))) with hcode
  have hcoder : coder_process env prompt (PyVal.list l) =
      Option.some ⟨code, detect_language code, pySlice prompt 100 ++ "..."⟩ := by
    simp [coder_process, hsum, hcode]
  set cr : CodeResult := ⟨code, detect_language code, pySlice prompt 100 ++ "..."⟩ with hcr
  obtain ⟨score, approved, hscore, happroved⟩ := goodReview_elim (h2 cr)
  refine ⟨compile_results prompt (PyVal.list l) cr (critic_process env cr)
      (tester_process env cr) score approved, ?_, rfl, rfl, rfl, rfl, rfl⟩
  simp only [generate_code, hl, pyLen, hcoder, hscore, happroved]

/-- C1 (witness for the amended theorem): in the all-fallback environment the
pipeline completes and the record carries the five fields. -/
theorem c1_pipeline_total_witness :
    ∃ r, generate_code envAllFallback "create a function to add two numbers" = Option.some r ∧
      (pyGet r "prompt").isSome = true ∧ (pyGet r "tasks").isSome = true ∧
      (pyGet r "code").isSome = true ∧ (pyGet r "review").isSome = true ∧
      (pyGet r "tests").isSome = true :=
  c1_pipeline_total_for_shaped_responses envAllFallback
    "create a function to add two numbers" rfl (fun _ => rfl)

/-- C2: for every prompt, if the planner stage's inference response is not
valid JSON — `json.loads` raises on it — `PlannerAgent.process` returns the
fixed fallback, a list of length exactly 2. -/
theorem c2_planner_fallback_two_tasks (env : Env) (prompt : String)
    (h : env.loads (call_openai (env.api prompt plannerSystemMsg)) = Option.none) :
    planner_process env prompt = plannerFallback ∧
      ∃ l, plannerFallback = PyVal.list l ∧ l.length = 2 := by
  exact ⟨by simp [planner_process, h], _, rfl, rfl⟩

/-- C2 (witness): concrete non-JSON response. -/
theorem c2_planner_fallback_witness :
    planner_process envAllFallback "build a parsing tool" = plannerFallback ∧
      ∃ l, plannerFallback = PyVal.list l ∧ l.length = 2 :=
  c2_planner_fallback_two_tasks envAllFallback "build a parsing tool" rfl

/-- C3: for every code result, if the review stage's inference response is not
valid JSON, `CriticAgent.process` returns the fixed fallback critique, whose
`approved` field is `True` and whose `score` field is `7`. -/
theorem c3_critic_fallback_approved_seven (env : Env) (cr : CodeResult)
    (h : env.loads (call_openai (env.api (criticUserPrompt cr) criticSystemMsg)) = Option.none) :
    critic_process env cr = criticFallback ∧
      pyGet criticFallback "approved" = Option.some (PyVal.bool true) ∧
      pyGet criticFallback "score" = Option.some (PyVal.int 7) := by
  exact ⟨by simp [critic_process, h], rfl, rfl⟩

/-- C3 (witness): concrete non-JSON response. -/
theorem c3_critic_fallback_witness :
    critic_process envAllFallback ⟨"def f(): pass", "python", "a function"⟩ = criticFallback ∧
      pyGet criticFallback "approved" = Option.some (PyVal.bool true) ∧
      pyGet criticFallback "score" = Option.some (PyVal.int 7) :=
  c3_critic_fallback_approved_seven envAllFallback ⟨"def f(): pass", "python", "a function"⟩ rfl

/-- C4: whenever `generate_code` returns a record, the record's top-level
`quality_score` field is exactly the `score` field of the review it stores
under `review` (the review-stage output). -/
theorem c4_quality_score_matches_review (env : Env) (prompt : String) (r : PyVal)
    (h : generate_code env prompt = Option.some r) :
    ∃ rev s, pyGet r "review" = Option.some rev ∧
      pyGet rev "score" = Option.some s ∧
      pyGet r "quality_score" = Option.some s := by
  obtain ⟨n, cr, score, approved, _, _, hscore, _, hr⟩ := generate_code_eq_some h
  subst hr
  exact ⟨critic_process env cr, score, rfl, hscore, rfl⟩

/-- C4 (witness): the concrete all-fallback run, where the stored review is
the fallback critique and `quality_score` is its `score`, `7`. -/
theorem c4_quality_score_witness :
    ∃ rev s, pyGet resultW "review" = Option.some rev ∧
      pyGet rev "score" = Option.some s ∧
      pyGet resultW "quality_score" = Option.some s :=
  c4_quality_score_matches_review envAllFallback
    "create a function to add two numbers" resultW rfl

/-- C5: the classifier of `CodeAgent.process` checks javascript keywords
before java keywords, with python as the default: text containing the keyword
`function` (case-insensitively, as the classifier lowercases the text) and no
java marker classifies as javascript, and text containing none of the
javascript markers (`function`, `const`, `let`, `var`) and none of the java
markers (`public class`, `private`, `import java`) classifies as python. -/
theorem c5_language_classifier (code : String) :
    (pyIn "function" (pyLower code) = true → javaAny (pyLower code) = false →
      detect_language code = "javascript") ∧
    (jsAny (pyLower code) = false → javaAny (pyLower code) = false →
      detect_language code = "python") := by
  constructor
  · intro h1 _
    have hjs : jsAny (pyLower code) = true := by simp [jsAny, h1]
    simp [detect_language, hjs]
  · intro h1 h2
    simp [detect_language, h1, h2]

/-- C5 (witness): a concrete javascript snippet and a concrete python
snippet. -/
theorem c5_language_classifier_witness :
    detect_language "function add(a, b) \x7b return a + b; \x7d" = "javascript" ∧
    detect_language "def add(a, b):\n    return a + b" = "python" :=
  ⟨(c5_language_classifier "function add(a, b) \x7b return a + b; \x7d").1 rfl rfl,
   (c5_language_classifier "def add(a, b):\n    return a + b").2 rfl rfl⟩

/-- C6: the extension `save_result` uses is a pure two-way function of the
record's `language` field — `python` maps to `.py` and every other language
(java included) maps to `.js` — and every successful `save_result` derives
all its file names from that function. -/
theorem c6_extension_two_way (res : PyVal) (fn : String)
    (ws : List (String × FileContent)) (lang : PyVal) :
    choose_ext (PyVal.str "python") = ".py" ∧
    (∀ l : String, l ≠ "python" → choose_ext (PyVal.str l) = ".js") ∧
    (pyGet res "language" = Option.some lang → save_result res fn = Option.some ws →
      ws.map Prod.fst =
        [fn ++ choose_ext lang, fn ++ "_test" ++ choose_ext lang, fn ++ "_info.json"]) := by
  refine ⟨rfl, ?_, ?_⟩
  · intro l hl
    simp [choose_ext, hl]
  · intro h1 h2
    obtain ⟨lang', _, _, _, hlang', _, _, _, hws⟩ := save_result_eq_some h2
    have : lang' = lang := by rw [hlang'] at h1; exact Option.some.inj h1
    subst this
    subst hws
    rfl

/-- C6 (witness): the java-classified record gets `.js` for both code and test
files. -/
theorem c6_extension_witness :
    choose_ext (PyVal.str "java") = ".js" ∧
    wsJ.map Prod.fst = ["out" ++ choose_ext (PyVal.str "java"),
      "out" ++ "_test" ++ choose_ext (PyVal.str "java"), "out" ++ "_info.json"] :=
  ⟨(c6_extension_two_way resJava "out" wsJ (PyVal.str "java")).2.1 "java" (by decide),
   (c6_extension_two_way resJava "out" wsJ (PyVal.str "java")).2.2 rfl rfl⟩

/-- C7: `AIAgent.call_openai` returns a string on every outcome of the
underlying API call; a transport or API failure raising e is converted to the
error-description string `"Error: " ++ str(e)` instead of propagating, and a
successful call returns the response content verbatim. -/
theorem c7_call_openai_always_string (o : ApiOutcome) :
    (∃ s : String, call_openai o = s) ∧
    (∀ e, o = ApiOutcome.failure e → call_openai o = "Error: " ++ e) ∧
    (∀ c, o = ApiOutcome.success c → call_openai o = c) := by
  refine ⟨⟨call_openai o, rfl⟩, ?_, ?_⟩ <;> rintro x rfl <;> rfl

/-- C7 (witness): a concrete failed call. -/
theorem c7_call_openai_witness :
    call_openai (ApiOutcome.failure "Connection refused") = "Error: " ++ "Connection refused" :=
  (c7_call_openai_always_string (ApiOutcome.failure "Connection refused")).2.1
    "Connection refused" rfl

/-- C8: when the credential variable `main` requires (`OPENAI_API_KEY`, line
245) is absent from the process environment, `main` reports the error and
returns before the orchestrator is built: no pipeline stage runs and no
inference call is made — the outcome is `missingKey` and is independent of
the inference environment. -/
theorem c8_missing_key_aborts (env env' : Env) (getenv : String → Option String)
    (args : CliArgs) (h : getenv "OPENAI_API_KEY" = Option.none) :
    main env getenv args = MainOutcome.missingKey ∧
      main env' getenv args = MainOutcome.missingKey := by
  constructor <;> simp [main, h, pyTruthy]

/-- C8 (witness): empty process environment, two different inference
environments. -/
theorem c8_missing_key_witness :
    main envAllFallback getenvNone argsW = MainOutcome.missingKey ∧
      main envJsonInt getenvNone argsW = MainOutcome.missingKey :=
  c8_missing_key_aborts envAllFallback envJsonInt getenvNone argsW rfl

/-- C9: every successful `save_result` writes exactly three sibling files
sharing the base name: the code field at `<basename><ext>`, the tests field
at `<basename>_test<ext>`, and at `<basename>_info.json` the json dump of a
dict that agrees with the result record on every field except `code` and
`tests`, which it omits. -/
theorem c9_three_sibling_files (res : PyVal) (fn : String)
    (ws : List (String × FileContent)) (h : save_result res fn = Option.some ws) :
    ws.length = 3 ∧
    ∃ ext code tests mv,
      pyGet res "code" = Option.some (PyVal.str code) ∧
      pyGet res "tests" = Option.some (PyVal.str tests) ∧
      ws = [(fn ++ ext, FileContent.text code),
            (fn ++ "_test" ++ ext, FileContent.text tests),
            (fn ++ "_info.json", FileContent.jsonDump mv)] ∧
      (∀ k, k ≠ "code" → k ≠ "tests" → pyGet mv k = pyGet res k) ∧
      pyGet mv "code" = Option.none ∧ pyGet mv "tests" = Option.none := by
  obtain ⟨lang, code, tests, kvs, _, hcode, htests, hres, hws⟩ := save_result_eq_some h
  subst hws
  refine ⟨rfl, choose_ext lang, code, tests, _, hcode, htests, rfl, ?_, ?_, ?_⟩
  · intro k hk1 hk2
    have hp : ¬(k = "code" ∨ k = "tests") := by simp [hk1, hk2]
    rw [hres]
    exact alistGet_filter_keep (p := fun s => ¬(s = "code" ∨ s = "tests")) hp kvs
  · exact alistGet_filter_drop (p := fun s => ¬(s = "code" ∨ s = "tests")) (by simp) kvs
  · exact alistGet_filter_drop (p := fun s => ¬(s = "code" ∨ s = "tests")) (by simp) kvs

/-- C9 (witness): the concrete java record saved under base name `out`. -/
theorem c9_three_sibling_files_witness :
    wsJ.length = 3 ∧
    ∃ ext code tests mv,
      pyGet resJava "code" = Option.some (PyVal.str code) ∧
      pyGet resJava "tests" = Option.some (PyVal.str tests) ∧
      wsJ = [("out" ++ ext, FileContent.text code),
             ("out" ++ "_test" ++ ext, FileContent.text tests),
             ("out" ++ "_info.json", FileContent.jsonDump mv)] ∧
      (∀ k, k ≠ "code" → k ≠ "tests" → pyGet mv k = pyGet resJava k) ∧
      pyGet mv "code" = Option.none ∧ pyGet mv "tests" = Option.none :=
  c9_three_sibling_files resJava "out" wsJ rfl

/-- C10: whenever `CodeAgent.process` returns, the `description` field is the
first 100 characters of the prompt with `...` appended; the ellipsis is
unconditional, so a prompt of at most 100 characters yields the whole prompt
followed by `...`. -/
theorem c10_description_unconditional_ellipsis (env : Env) (prompt : String)
    (tasks : PyVal) (cr : CodeResult) (h : coder_process env prompt tasks = Option.some cr) :
    cr.description = pySlice prompt 100 ++ "..." ∧
    (prompt.length ≤ 100 → cr.description = prompt ++ "...") := by
  have hdesc : cr.description = pySlice prompt 100 ++ "..." := by
    unfold coder_process at h
    split at h
    · exact absurd h (by simp)
    · cases Option.some.inj h; rfl
  refine ⟨hdesc, fun hlen => ?_⟩
  rw [hdesc]
  show (⟨prompt.data.take 100⟩ : String) ++ "..." = prompt ++ "..."
  rw [List.take_of_length_le hlen]

/-- C10 (witness): a 15-character prompt keeps its full text and still gets
the ellipsis. -/
theorem c10_description_witness :
    crW.description = "add two numbers" ++ "..." :=
  (c10_description_unconditional_ellipsis envAllFallback "add two numbers"
    (PyVal.list []) crW rfl).2 (by decide)

end CodeCraft
